import Mathlib

/-!
Shallow embedding of the Clinical Record Lifecycle & Health Analytics Engine
(server/storage.ts, server/routes.ts, server/prediction-lab-routes.ts).

Time is modelled as milliseconds since the epoch (`Int`), matching
`Date.now()` / `Date` comparisons in the source.  The in-memory OTP map
(`Map<string, {otp, expires}>`) is modelled as a function from keys to
optional entries.  Document-store collections are modelled as lists of
records; `findOne`/`findOneAndUpdate` act on the first matching element.
-/

/-- One pending password-reset entry, `{ otp, expires }` in storage.ts. -/
structure OtpEntry where
  otp : String
  expires : Int
deriving DecidableEq, Repr

/-- The process-local `Map<string, OtpEntry>`, as a total lookup function. -/
def OtpStore : Type := String → Option OtpEntry

/-- Empty OTP store (fresh `new Map()`). -/
def otpEmpty : OtpStore := fun _ => none

/-- Key construction from storage.ts: the template string `role:roleId`. -/
def otpKey (roleId role : String) : String := role ++ ":" ++ roleId

/-- `Map.prototype.set`. -/
def otpSet (m : OtpStore) (k : String) (v : OtpEntry) : OtpStore :=
  fun k2 => if k2 == k then some v else m k2

/-- `Map.prototype.delete`. -/
def otpDelete (m : OtpStore) (k : String) : OtpStore :=
  fun k2 => if k2 == k then none else m k2

/-- DatabaseStorage.saveResetOtp: stores the code under `role:roleId` with
`expires = Date.now() + 10 * 60 * 1000`. -/
def saveResetOtp (m : OtpStore) (now : Int) (roleId role otp : String) : OtpStore :=
  otpSet m (otpKey roleId role) { otp := otp, expires := now + 10 * 60 * 1000 }

/-- DatabaseStorage.verifyResetOtp: returns the boolean result and the
(possibly mutated) store.  No entry: false.  Expired (`now > expires`):
delete the entry and return false.  Otherwise: compare codes, the store is
left untouched in both the match and mismatch case. -/
def verifyResetOtp (m : OtpStore) (now : Int) (roleId role otp : String) :
    Bool × OtpStore :=
  match m (otpKey roleId role) with
  | none => (false, m)
  | some data =>
      if data.expires < now then (false, otpDelete m (otpKey roleId role))
      else (data.otp == otp, m)

/-- A User document: `{ id, roleId, role, password }` (password stores the
bcrypt hash). -/
structure User where
  id : String
  roleId : String
  role : String
  password : String
deriving DecidableEq, Repr

/-- Lower-casing of an identifier, modelling the case-insensitive regex
`^roleId$` with flag `i` as a normalize-then-compare step. -/
def jsToLower (s : String) : String := String.mk (s.data.map Char.toLower)

/-- DatabaseStorage.getUserByRoleId: case-insensitive regex match on
`roleId` (`^roleId$` with the `i` flag), exact match on `role`;
`findOne` returns the first matching document. -/
def getUserByRoleId (users : List User) (roleId role : String) : Option User :=
  users.find? (fun u => jsToLower u.roleId == jsToLower roleId && u.role == role)

/-- Replace the password of the first user matching `{ roleId, role }`
exactly (mongoose `findOneAndUpdate` semantics); no-op when none matches. -/
def setPasswordExact (users : List User) (roleId role newHash : String) :
    List User :=
  match users with
  | [] => []
  | u :: rest =>
      if u.roleId == roleId && u.role == role then
        { u with password := newHash } :: rest
      else
        u :: setPasswordExact rest roleId role newHash

/-- DatabaseStorage.updateUserPassword: hashes the password, runs an
exact-match `findOneAndUpdate({ roleId, role })` (silently a no-op when no
user matches exactly), then unconditionally deletes the pending OTP entry.
The bcrypt hash is an external collaborator, passed as `hash`. -/
def updateUserPassword (hash : String → String) (users : List User)
    (m : OtpStore) (roleId role password : String) : List User × OtpStore :=
  (setPasswordExact users roleId role (hash password),
   otpDelete m (otpKey roleId role))

/-- Outcome of POST /api/auth/reset-password. -/
inductive ResetResp where
  | invalidOtp : ResetResp
  | success : ResetResp
deriving DecidableEq, Repr

/-- HTTP status the route attaches to each outcome. -/
def ResetResp.status : ResetResp → Nat
  | .invalidOtp => 400
  | .success => 200

/-- routes.ts POST /api/auth/reset-password: verify the OTP; on failure
respond 400 "Invalid or expired OTP"; on success call
`storage.updateUserPassword` and respond 200 "Password updated successfully". -/
def resetPasswordRoute (hash : String → String) (users : List User)
    (m : OtpStore) (now : Int) (roleId role otp newPassword : String) :
    ResetResp × List User × OtpStore :=
  let v := verifyResetOtp m now roleId role otp
  if v.1 then
    let u := updateUserPassword hash users v.2 roleId role newPassword
    (.success, u.1, u.2)
  else
    (.invalidOtp, users, v.2)

/-- The numeric OTP of routes.ts POST /api/auth/forgot-password:
`Math.floor(100000 + Math.random() * 900000)`, with the `Math.random()`
draw `r ∈ [0,1)` passed explicitly. -/
def genOtpNat (r : ℚ) : ℕ := (Int.toNat ⌊(100000 : ℚ) + r * 900000⌋)

/-- The OTP as sent and stored: `.toString()` of the number. -/
def genOtp (r : ℚ) : String := Nat.repr (genOtpNat r)

/-- routes.ts POST /api/auth/forgot-password: look up the user
(case-insensitively); 404 with no state change when absent; otherwise
generate the 6-digit code, store it via saveResetOtp and return it. -/
def forgotPasswordRoute (users : List User) (m : OtpStore) (now : Int)
    (roleId role : String) (r : ℚ) : Option String × OtpStore :=
  match getUserByRoleId users roleId role with
  | none => (none, m)
  | some _ => (some (genOtp r), saveResetOtp m now roleId role (genOtp r))

/-- A HealthRecord document (shared schema fields used by the server code).
`dateTime`, `editableUntil` and `updatedAt` are epoch milliseconds. -/
structure HealthRecord where
  id : String
  patientId : String
  hospitalId : String
  doctorId : String
  dateTime : Int
  diseaseName : String
  diseaseDescription : String
  treatment : Option String
  prescription : Option String
  riskLevel : String
  emergencyWarnings : Option String
  isEditable : Bool
  editableUntil : Option Int
  updatedAt : Option Int
deriving DecidableEq, Repr

/-- Client-side insert payload for a health record.  `isEditable` and
`editableUntil` may be supplied by the client but are overridden by the
storage layer. -/
structure InsertHealthRecord where
  id : Option String
  patientId : String
  hospitalId : String
  doctorId : String
  dateTime : Int
  diseaseName : String
  diseaseDescription : String
  treatment : Option String
  prescription : Option String
  riskLevel : String
  emergencyWarnings : Option String
  isEditable : Option Bool
  editableUntil : Option Int
deriving DecidableEq, Repr

/-- DatabaseStorage.createHealthRecord: spreads the parsed insert payload
and then forces `isEditable: true` and `editableUntil = now + 1 hour`
(`editableUntil.setHours(editableUntil.getHours() + 1)`, i.e. +3600000 ms);
the generated id (`Date.now()-Math.random()`) is passed as `genId` and used
only when the payload carries none. -/
def createHealthRecord (now : Int) (genId : String)
    (input : InsertHealthRecord) : HealthRecord :=
  { id := input.id.getD genId
    patientId := input.patientId
    hospitalId := input.hospitalId
    doctorId := input.doctorId
    dateTime := input.dateTime
    diseaseName := input.diseaseName
    diseaseDescription := input.diseaseDescription
    treatment := input.treatment
    prescription := input.prescription
    riskLevel := input.riskLevel
    emergencyWarnings := input.emergencyWarnings
    isEditable := true
    editableUntil := some (now + 3600000)
    updatedAt := none }

/-- DatabaseStorage.getHealthRecordById: `findOne({ id })`. -/
def getHealthRecordById (db : List HealthRecord) (id : String) :
    Option HealthRecord :=
  db.find? (fun r => r.id == id)

/-- A `Partial<HealthRecord>` patch: every field optional, `none` meaning
"not named in the patch".  For record fields that are themselves nullable
the patch value is the full new value. -/
structure RecordPatch where
  id : Option String := none
  patientId : Option String := none
  hospitalId : Option String := none
  doctorId : Option String := none
  dateTime : Option Int := none
  diseaseName : Option String := none
  diseaseDescription : Option String := none
  treatment : Option (Option String) := none
  prescription : Option (Option String) := none
  riskLevel : Option String := none
  emergencyWarnings : Option (Option String) := none
  isEditable : Option Bool := none
  editableUntil : Option (Option Int) := none
deriving DecidableEq, Repr

/-- The effect of `findOneAndUpdate({ id }, { ...data, updatedAt: new Date() })`
on one document: each field named in the patch is overwritten, every other
field keeps its stored value, and `updatedAt` is stamped with `now`. -/
def applyPatch (r : HealthRecord) (p : RecordPatch) (now : Int) :
    HealthRecord :=
  { id := p.id.getD r.id
    patientId := p.patientId.getD r.patientId
    hospitalId := p.hospitalId.getD r.hospitalId
    doctorId := p.doctorId.getD r.doctorId
    dateTime := p.dateTime.getD r.dateTime
    diseaseName := p.diseaseName.getD r.diseaseName
    diseaseDescription := p.diseaseDescription.getD r.diseaseDescription
    treatment := p.treatment.getD r.treatment
    prescription := p.prescription.getD r.prescription
    riskLevel := p.riskLevel.getD r.riskLevel
    emergencyWarnings := p.emergencyWarnings.getD r.emergencyWarnings
    isEditable := p.isEditable.getD r.isEditable
    editableUntil := p.editableUntil.getD r.editableUntil
    updatedAt := some now }

/-- DatabaseStorage.updateHealthRecord: `findOneAndUpdate({ id }, ...)` over
the collection — patch the first record whose `id` matches, return the new
document (none when no match) together with the updated collection.  Note:
this storage-level operation performs no editability check of any kind. -/
def updateHealthRecord (db : List HealthRecord) (now : Int) (id : String)
    (p : RecordPatch) : Option HealthRecord × List HealthRecord :=
  match db with
  | [] => (none, [])
  | r :: rest =>
      if r.id == id then (some (applyPatch r p now), applyPatch r p now :: rest)
      else
        let res := updateHealthRecord rest now id p
        (res.1, r :: res.2)

/-- Outcome of PATCH /api/health-records/:id. -/
inductive PatchResp where
  | notFound : PatchResp
  | locked : PatchResp
  | ok : Option HealthRecord → PatchResp
deriving DecidableEq, Repr

/-- HTTP status attached to each outcome (404 / 403 / 200). -/
def PatchResp.status : PatchResp → Nat
  | .notFound => 404
  | .locked => 403
  | .ok _ => 200

/-- routes.ts PATCH /api/health-records/:id: fetch the record (404 when
absent); reject with 403 "Record is no longer editable (1 hour limit
exceeded)" when `!record.isEditable || (record.editableUntil && new Date() >
record.editableUntil)`; otherwise apply the patch through
`storage.updateHealthRecord`. -/
def patchHealthRecordRoute (db : List HealthRecord) (now : Int) (id : String)
    (p : RecordPatch) : PatchResp × List HealthRecord :=
  match getHealthRecordById db id with
  | none => (.notFound, db)
  | some record =>
      if !record.isEditable
          || (match record.editableUntil with
              | some t => decide (t < now)
              | none => false) then
        (.locked, db)
      else
        let res := updateHealthRecord db now id p
        (.ok res.1, res.2)

/-- A normal range `{ min, max }` for one lab test entry. -/
structure NormalRange where
  min : ℚ
  max : ℚ
deriving DecidableEq, Repr

/-- One entry of a LabResult's `results` array.  `normalRange` is nullable
(client/src/components/LabResults.tsx declares it
`{ min: number; max: number } | null`). -/
structure TestEntry where
  testName : String
  value : ℚ
  unit : String
  normalRange : Option NormalRange
  isAbnormal : Bool
  severity : String
deriving DecidableEq, Repr

/-- A LabResult document. -/
structure LabResult where
  id : String
  patientId : String
  testDate : Int
  testType : String
  orderedBy : String
  labName : String
  results : List TestEntry
  overallStatus : String
deriving DecidableEq, Repr

/-- The scan of one result's `results` array:
`result.results.find(r => r.testName === testName)` (exact match, first
entry wins). -/
def findTest (entries : List TestEntry) (testName : String) :
    Option TestEntry :=
  entries.find? (fun e => e.testName == testName)

/-- The data-extraction loop of DatabaseStorage.getLabTrends, carrying the
sticky `normalRange` accumulator: for each result with a matching entry,
push `{date, value}`; assign `normalRange = testResult.normalRange` only
while the accumulator is still null (`if (!normalRange)`). -/
def labScanAux (testName : String) (acc : Option NormalRange) :
    List LabResult → List (Int × ℚ) × Option NormalRange
  | [] => ([], acc)
  | r :: rest =>
      match findTest r.results testName with
      | some e =>
          let acc2 := match acc with
            | none => e.normalRange
            | some x => some x
          let res := labScanAux testName acc2 rest
          ((r.testDate, e.value) :: res.1, res.2)
      | none => labScanAux testName acc rest

/-- Data points and captured normal range for a test, starting from a null
accumulator. -/
def labScan (labResults : List LabResult) (testName : String) :
    List (Int × ℚ) × Option NormalRange :=
  labScanAux testName none labResults

/-- An IEEE-754 double as produced by the classifier's arithmetic: the only
non-finite values reachable are the results of dividing by a zero
`olderAvg`. -/
inductive JsNum where
  | fin : ℚ → JsNum
  | posInf : JsNum
  | negInf : JsNum
  | nan : JsNum
deriving DecidableEq, Repr

/-- JS division `a / b` (finite operands): finite quotient when `b ≠ 0`,
`±Infinity` or `NaN` when `b = 0`. -/
def jsDiv (a b : ℚ) : JsNum :=
  if b ≠ 0 then .fin (a / b)
  else if 0 < a then .posInf
  else if a < 0 then .negInf
  else .nan

/-- Multiplication by the literal 100 in `((recentAvg - olderAvg) / olderAvg) * 100`. -/
def jsMul100 : JsNum → JsNum
  | .fin q => .fin (q * 100)
  | .posInf => .posInf
  | .negInf => .negInf
  | .nan => .nan

/-- `Math.abs` on the possibly non-finite change. -/
def jsAbs : JsNum → JsNum
  | .fin q => .fin |q|
  | .posInf => .posInf
  | .negInf => .posInf
  | .nan => .nan

/-- JS `x < c` for a finite literal `c`: false for `NaN` and `Infinity`. -/
def jsLtConst (x : JsNum) (c : ℚ) : Bool :=
  match x with
  | .fin q => decide (q < c)
  | .negInf => true
  | .posInf => false
  | .nan => false

/-- JS `x > 0`: false for `NaN` and `-Infinity`. -/
def jsGtZero : JsNum → Bool
  | .fin q => decide (0 < q)
  | .posInf => true
  | .negInf => false
  | .nan => false

/-- Arithmetic mean used by the classifier (only evaluated on nonempty
groups). -/
def avgQ (xs : List ℚ) : ℚ := xs.sum / (xs.length : ℚ)

/-- `dataPoints.slice(-3)`: the last three points (all of them when fewer). -/
def recentOf (pts : List (Int × ℚ)) : List (Int × ℚ) :=
  pts.drop (pts.length - 3)

/-- `dataPoints.slice(0, -3)`: everything before the last three. -/
def olderOf (pts : List (Int × ℚ)) : List (Int × ℚ) :=
  pts.take (pts.length - 3)

/-- Mean value of the recent group. -/
def recentAvgOf (pts : List (Int × ℚ)) : ℚ :=
  avgQ ((recentOf pts).map Prod.snd)

/-- Mean value of the older group. -/
def olderAvgOf (pts : List (Int × ℚ)) : ℚ :=
  avgQ ((olderOf pts).map Prod.snd)

/-- The trend-determination block of DatabaseStorage.getLabTrends, with the
percent change computed in JS double semantics (the division by `olderAvg`
is unguarded in the source). -/
def classifyTrend (dataPoints : List (Int × ℚ))
    (normalRange : Option NormalRange) : String :=
  if 2 ≤ dataPoints.length then
    let recent := recentOf dataPoints
    let older := olderOf dataPoints
    if 0 < recent.length ∧ 0 < older.length then
      let recentAvg := avgQ (recent.map Prod.snd)
      let olderAvg := avgQ (older.map Prod.snd)
      let change := jsMul100 (jsDiv (recentAvg - olderAvg) olderAvg)
      if jsLtConst (jsAbs change) 5 then "stable"
      else
        match normalRange with
        | some nr =>
            let targetMid := (nr.min + nr.max) / 2
            if |recentAvg - targetMid| < |olderAvg - targetMid| then
              "improving"
            else "worsening"
        | none => if jsGtZero change then "increasing" else "decreasing"
    else "stable"
  else "stable"

/-- The value returned by getLabTrends. -/
structure TrendResult where
  testName : String
  data : List (Int × ℚ)
  trend : String
  normalRange : Option NormalRange
deriving DecidableEq, Repr

/-- Stable insertion of a lab result into a testDate-ascending list. -/
def insertByDate (r : LabResult) : List LabResult → List LabResult
  | [] => [r]
  | x :: xs =>
      if r.testDate ≤ x.testDate then r :: x :: xs
      else x :: insertByDate r xs

/-- The store's `.sort({ testDate: 1 })` on the fetched results. -/
def sortByTestDate (rs : List LabResult) : List LabResult :=
  rs.foldr insertByDate []

/-- The patient's lab results as the query
`LabResults.find({ patientId }).sort({ testDate: 1 })` returns them. -/
def patientLabsSorted (allLabs : List LabResult) (patientId : String) :
    List LabResult :=
  sortByTestDate (allLabs.filter (fun r => r.patientId == patientId))

/-- DatabaseStorage.getLabTrends: fetch the patient's results date-ascending,
extract the matching data points and sticky normal range, classify, and
return `{ testName, data, trend, normalRange }`. -/
def getLabTrends (allLabs : List LabResult) (patientId testName : String) :
    TrendResult :=
  let s := labScan (patientLabsSorted allLabs patientId) testName
  { testName := testName
    data := s.1
    trend := classifyTrend s.1 s.2
    normalRange := s.2 }

/-- A single condition risk inside a HealthPrediction. -/
structure RiskPrediction where
  condition : String
  riskScore : ℚ
  riskLevel : String
  recommendations : List String
deriving DecidableEq, Repr

/-- A HealthPrediction snapshot document. -/
structure HealthPrediction where
  id : String
  patientId : String
  predictionDate : Int
  predictions : List RiskPrediction
  overallHealthScore : ℚ
  trendDirection : String
deriving DecidableEq, Repr

/-- Stable insertion into a predictionDate-descending list. -/
def insertByDateDesc (p : HealthPrediction) :
    List HealthPrediction → List HealthPrediction
  | [] => [p]
  | x :: xs =>
      if x.predictionDate ≤ p.predictionDate then p :: x :: xs
      else x :: insertByDateDesc p xs

/-- DatabaseStorage.getLatestPrediction:
`findOne({ patientId }).sort({ predictionDate: -1 })` — the head of the
patient's snapshots sorted most-recent-first. -/
def getLatestPrediction (allPreds : List HealthPrediction)
    (patientId : String) : Option HealthPrediction :=
  ((allPreds.filter (fun p => p.patientId == patientId)).foldr
    insertByDateDesc []).head?

/-- One row of the dashboard's `currentRisks` projection. -/
structure CurrentRisk where
  condition : String
  riskScore : ℚ
  riskLevel : String
deriving DecidableEq, Repr

/-- The dashboard payload. -/
structure DashboardView where
  currentRisks : List CurrentRisk
  healthScore : ℚ
  trend : String
  recommendations : List String
deriving DecidableEq, Repr

/-- The fixed advisory string of the no-prediction fallback payload. -/
def fallbackAdvisory : String :=
  "No recent predictions available. Generate predictions to see risk assessment."

/-- prediction-lab-routes.ts GET /api/predictions/dashboard/:patientId:
fallback payload when no prediction is stored; otherwise filter to
high/critical risks projected to `{condition, riskScore, riskLevel}`,
flatten all recommendation lists and keep the first 5, and pass
`overallHealthScore`/`trendDirection` through. -/
def predictionDashboard (allPreds : List HealthPrediction)
    (patientId : String) : DashboardView :=
  match getLatestPrediction allPreds patientId with
  | none =>
      { currentRisks := []
        healthScore := 85
        trend := "stable"
        recommendations := [fallbackAdvisory] }
  | some lp =>
      { currentRisks :=
          (lp.predictions.filter
            (fun p => p.riskLevel == "high" || p.riskLevel == "critical")).map
            (fun p =>
              { condition := p.condition
                riskScore := p.riskScore
                riskLevel := p.riskLevel })
        healthScore := lp.overallHealthScore
        trend := lp.trendDirection
        recommendations :=
          ((lp.predictions.map (fun p => p.recommendations)).flatten).take 5 }

/-! Helper lemmas -/

/-- find? over an append whose first part has no match. -/
theorem find?_append_none {α : Type} (p : α → Bool) (l1 l2 : List α)
    (h : l1.find? p = none) : (l1 ++ l2).find? p = l2.find? p := by
  induction l1 with
  | nil => rfl
  | cons a l ih =>
      by_cases ha : p a
      · simp [List.find?_cons_of_pos _ ha] at h
      · simp only [List.find?_cons_of_neg _ ha] at h
        simpa [List.find?_cons_of_neg _ ha] using ih h

/-! C6: creation forces the one-hour editable window -/

/-- C6: for every valid input, createHealthRecord returns a record with
`isEditable = true` and `editableUntil = now + 1h`, independent of any
client-supplied `isEditable`/`editableUntil`; read back immediately from a
store that had no record with that id, the stored record has
`isEditable = true` and `editableUntil` within `[now, now + 1h]`. -/
theorem createHealthRecord_window_spec (db : List HealthRecord) (now : Int)
    (genId : String) (input : InsertHealthRecord)
    (hfresh : db.find?
      (fun r => r.id == (createHealthRecord now genId input).id) = none) :
    (createHealthRecord now genId input).isEditable = true
    ∧ (createHealthRecord now genId input).editableUntil = some (now + 3600000)
    ∧ (∃ t, (createHealthRecord now genId input).editableUntil = some t
        ∧ now ≤ t ∧ t ≤ now + 3600000)
    ∧ (∀ b e, createHealthRecord now genId
        { input with isEditable := b, editableUntil := e } =
        createHealthRecord now genId input)
    ∧ getHealthRecordById (db ++ [createHealthRecord now genId input])
        (createHealthRecord now genId input).id =
        some (createHealthRecord now genId input) := by
  refine ⟨rfl, rfl, ⟨now + 3600000, rfl, by omega, le_refl _⟩,
    fun b e => rfl, ?_⟩
  unfold getHealthRecordById
  rw [find?_append_none _ _ _ hfresh]
  simp [List.find?_cons]

/-- Concrete insert payload used by witnesses. -/
def exInsert : InsertHealthRecord :=
  { id := none
    patientId := "PAT1"
    hospitalId := "HOS1"
    doctorId := "DOC1"
    dateTime := 500
    diseaseName := "flu"
    diseaseDescription := "seasonal"
    treatment := none
    prescription := none
    riskLevel := "low"
    emergencyWarnings := none
    isEditable := some false
    editableUntil := some 7 }

/-- Witness for C6 at a concrete input. -/
theorem createHealthRecord_window_witness :
    (createHealthRecord 1000 "g0" exInsert).isEditable = true
    ∧ (createHealthRecord 1000 "g0" exInsert).editableUntil = some 3601000
    ∧ (∃ t, (createHealthRecord 1000 "g0" exInsert).editableUntil = some t
        ∧ (1000 : Int) ≤ t ∧ t ≤ 3601000)
    ∧ (∀ b e, createHealthRecord 1000 "g0"
        { exInsert with isEditable := b, editableUntil := e } =
        createHealthRecord 1000 "g0" exInsert)
    ∧ getHealthRecordById ([] ++ [createHealthRecord 1000 "g0" exInsert])
        (createHealthRecord 1000 "g0" exInsert).id =
        some (createHealthRecord 1000 "g0" exInsert) :=
  createHealthRecord_window_spec [] 1000 "g0" exInsert rfl

/-! C8: verifyReset failure paths -/

/-- C8: verifyReset after `expiresAt` returns false and deletes the entry
(so a subsequent verify of the same code fails via the no-entry path);
verifyReset with no pending entry returns false; a non-matching code
returns false and leaves the entry in place. -/
theorem verifyResetOtp_failure_spec (m : OtpStore) (now now2 : Int)
    (roleId role code : String) :
    (m (otpKey roleId role) = none →
      verifyResetOtp m now roleId role code = (false, m))
    ∧ (∀ data, m (otpKey roleId role) = some data → data.expires < now →
        verifyResetOtp m now roleId role code =
          (false, otpDelete m (otpKey roleId role))
        ∧ (otpDelete m (otpKey roleId role)) (otpKey roleId role) = none
        ∧ (verifyResetOtp (otpDelete m (otpKey roleId role)) now2 roleId role
            code).1 = false)
    ∧ (∀ data, m (otpKey roleId role) = some data → now ≤ data.expires →
        data.otp ≠ code →
        verifyResetOtp m now roleId role code = (false, m)) := by
  refine ⟨?_, ?_, ?_⟩
  · intro h
    simp [verifyResetOtp, h]
  · intro data h hexp
    have hdel : (otpDelete m (otpKey roleId role)) (otpKey roleId role) = none := by
      simp [otpDelete]
    refine ⟨?_, hdel, ?_⟩
    · simp [verifyResetOtp, h, hexp]
    · simp [verifyResetOtp, hdel]
  · intro data h hle hne
    simp [verifyResetOtp, h, not_lt.mpr hle, hne]

/-- Concrete OTP store used by the C8 witness: one entry for
`patient:PAT1` expiring at 600000. -/
def exOtpStore : OtpStore := saveResetOtp otpEmpty 0 "PAT1" "patient" "111111"

/-- Witness for C8: the concrete store evaluated on the expiry path. -/
theorem verifyResetOtp_failure_witness :
    exOtpStore (otpKey "PAT1" "patient") = some { otp := "111111", expires := 600000 }
    ∧ verifyResetOtp exOtpStore 700000 "PAT1" "patient" "111111" =
        (false, otpDelete exOtpStore (otpKey "PAT1" "patient"))
    ∧ (otpDelete exOtpStore (otpKey "PAT1" "patient")) (otpKey "PAT1" "patient") = none
    ∧ (verifyResetOtp (otpDelete exOtpStore (otpKey "PAT1" "patient")) 700001
        "PAT1" "patient" "111111").1 = false := by
  have h : exOtpStore (otpKey "PAT1" "patient") =
      some { otp := "111111", expires := 600000 } := by decide
  have main := (verifyResetOtp_failure_spec exOtpStore 700000 700001 "PAT1"
    "patient" "111111").2.1 { otp := "111111", expires := 600000 } h (by decide)
  exact ⟨h, main.1, main.2.1, main.2.2⟩

/-! C1: route-level editable-window enforcement -/

/-- C1: with the record stored, the PATCH route succeeds (200) iff
`isEditable` is true and `editableUntil` is absent or `now ≤ editableUntil`;
otherwise it responds 403 (record locked) and the collection is unchanged;
the boundary is exact: a patch at `editableUntil - 1s` succeeds and at
`editableUntil + 1s` is rejected. -/
theorem patchRoute_window_spec (db : List HealthRecord) (now : Int)
    (id : String) (p : RecordPatch) (r : HealthRecord)
    (hfind : getHealthRecordById db id = some r) :
    ((patchHealthRecordRoute db now id p).1.status = 200 ↔
      (r.isEditable = true ∧ (r.editableUntil = none ∨
        ∃ t, r.editableUntil = some t ∧ now ≤ t)))
    ∧ ((patchHealthRecordRoute db now id p).1.status ≠ 200 →
        (patchHealthRecordRoute db now id p).1 = .locked
        ∧ (patchHealthRecordRoute db now id p).1.status = 403
        ∧ (patchHealthRecordRoute db now id p).2 = db)
    ∧ (∀ t, r.editableUntil = some t → r.isEditable = true →
        (patchHealthRecordRoute db (t - 1000) id p).1.status = 200
        ∧ (patchHealthRecordRoute db (t + 1000) id p).1 = .locked) := by
  cases hE : r.isEditable with
  | false =>
      have hroute : ∀ n : Int, patchHealthRecordRoute db n id p = (.locked, db) := by
        intro n
        simp [patchHealthRecordRoute, hfind, hE]
      refine ⟨?_, ?_, ?_⟩
      · simp [hroute, PatchResp.status]
      · intro _
        simp [hroute, PatchResp.status]
      · intro t _ hcontr
        exact absurd hcontr (by simp [hE])
  | true =>
      cases hU : r.editableUntil with
      | none =>
          have hroute : patchHealthRecordRoute db now id p =
              (.ok (updateHealthRecord db now id p).1,
               (updateHealthRecord db now id p).2) := by
            simp [patchHealthRecordRoute, hfind, hE, hU]
          refine ⟨?_, ?_, ?_⟩
          · simp [hroute, PatchResp.status, hU]
          · intro hne
            exact absurd (by simp [hroute, PatchResp.status]) hne
          · intro t ht
            simp [hU] at ht
      | some t =>
          have hroute : ∀ n : Int, ¬ t < n → patchHealthRecordRoute db n id p =
              (.ok (updateHealthRecord db n id p).1,
               (updateHealthRecord db n id p).2) := by
            intro n hn
            simp [patchHealthRecordRoute, hfind, hE, hU, hn]
          have hroute2 : ∀ n : Int, t < n →
              patchHealthRecordRoute db n id p = (.locked, db) := by
            intro n hn
            simp [patchHealthRecordRoute, hfind, hE, hU, hn]
          refine ⟨?_, ?_, ?_⟩
          · by_cases hn : t < now
            · rw [hroute2 now hn]
              simp only [PatchResp.status]
              constructor
              · intro h
                exact absurd h (by decide)
              · rintro ⟨-, h | ⟨t2, ht2, hle⟩⟩
                · exact Option.noConfusion h
                · cases ht2
                  exact absurd hle (by omega)
            · rw [hroute now hn]
              simp only [PatchResp.status]
              exact ⟨fun _ => ⟨by trivial, Or.inr ⟨t, rfl, by omega⟩⟩,
                fun _ => by trivial⟩
          · intro hne
            by_cases hn : t < now
            · rw [hroute2 now hn]
              simp only [PatchResp.status]
              exact ⟨by trivial, by trivial, by trivial⟩
            · rw [hroute now hn] at hne
              simp only [PatchResp.status] at hne
              exact absurd rfl hne
          · intro t2 ht2 _
            cases ht2
            constructor
            · rw [hroute (t - 1000) (by omega)]
              simp [PatchResp.status]
            · rw [hroute2 (t + 1000) (by omega)]

/-- Concrete stored record used by the C1 and C10 witnesses: editable with
deadline 3600000. -/
def exRecord : HealthRecord :=
  { id := "rec1"
    patientId := "PAT1"
    hospitalId := "HOS1"
    doctorId := "DOC1"
    dateTime := 100
    diseaseName := "flu"
    diseaseDescription := "seasonal"
    treatment := none
    prescription := none
    riskLevel := "low"
    emergencyWarnings := none
    isEditable := true
    editableUntil := some 3600000
    updatedAt := none }

/-- Witness for C1: the lock characterization evaluated on a one-record
store. -/
theorem patchRoute_window_witness :
    ((patchHealthRecordRoute [exRecord] 1000 "rec1" {}).1.status = 200 ↔
      (exRecord.isEditable = true ∧ (exRecord.editableUntil = none ∨
        ∃ t, exRecord.editableUntil = some t ∧ (1000 : Int) ≤ t)))
    ∧ ((patchHealthRecordRoute [exRecord] 1000 "rec1" {}).1.status ≠ 200 →
        (patchHealthRecordRoute [exRecord] 1000 "rec1" {}).1 = .locked
        ∧ (patchHealthRecordRoute [exRecord] 1000 "rec1" {}).1.status = 403
        ∧ (patchHealthRecordRoute [exRecord] 1000 "rec1" {}).2 = [exRecord])
    ∧ (∀ t, exRecord.editableUntil = some t → exRecord.isEditable = true →
        (patchHealthRecordRoute [exRecord] (t - 1000) "rec1" {}).1.status = 200
        ∧ (patchHealthRecordRoute [exRecord] (t + 1000) "rec1" {}).1 = .locked) :=
  patchRoute_window_spec [exRecord] 1000 "rec1" {} exRecord (by decide)

/-! C10: storage-level update is an unguarded field-wise overwrite -/

/-- Storage update finds the first id match and replaces it with the
patched record. -/
theorem updateHealthRecord_found (db : List HealthRecord) (now : Int)
    (id : String) (p : RecordPatch) (r : HealthRecord)
    (hfind : db.find? (fun x => x.id == id) = some r) :
    (updateHealthRecord db now id p).1 = some (applyPatch r p now) := by
  induction db with
  | nil => simp at hfind
  | cons a rest ih =>
      by_cases ha : a.id == id
      · have h2 : a = r := by
          simpa [List.find?_cons, ha] using hfind
        subst h2
        simp [updateHealthRecord, ha]
      · have h2 : rest.find? (fun x => x.id == id) = some r := by
          simpa [List.find?_cons, ha] using hfind
        simp [updateHealthRecord, ha, ih h2]

/-- C10: the storage-level updateHealthRecord applies exactly the fields
named in the patch plus a fresh `updatedAt`, leaves every other field of
the stored record unchanged, imposes no restriction on which fields the
patch may name and re-checks no lock condition — in particular a patch may
overwrite `isEditable` or `editableUntil` themselves. -/
theorem updateHealthRecord_frame_spec (db : List HealthRecord) (now : Int)
    (id : String) (p : RecordPatch) (r : HealthRecord)
    (hfind : getHealthRecordById db id = some r) :
    (updateHealthRecord db now id p).1 = some (applyPatch r p now)
    ∧ (applyPatch r p now).updatedAt = some now
    ∧ (p.id = none → (applyPatch r p now).id = r.id)
    ∧ (p.patientId = none → (applyPatch r p now).patientId = r.patientId)
    ∧ (p.hospitalId = none → (applyPatch r p now).hospitalId = r.hospitalId)
    ∧ (p.doctorId = none → (applyPatch r p now).doctorId = r.doctorId)
    ∧ (p.dateTime = none → (applyPatch r p now).dateTime = r.dateTime)
    ∧ (p.diseaseName = none → (applyPatch r p now).diseaseName = r.diseaseName)
    ∧ (p.diseaseDescription = none →
        (applyPatch r p now).diseaseDescription = r.diseaseDescription)
    ∧ (p.treatment = none → (applyPatch r p now).treatment = r.treatment)
    ∧ (p.prescription = none →
        (applyPatch r p now).prescription = r.prescription)
    ∧ (p.riskLevel = none → (applyPatch r p now).riskLevel = r.riskLevel)
    ∧ (p.emergencyWarnings = none →
        (applyPatch r p now).emergencyWarnings = r.emergencyWarnings)
    ∧ (p.isEditable = none → (applyPatch r p now).isEditable = r.isEditable)
    ∧ (p.editableUntil = none →
        (applyPatch r p now).editableUntil = r.editableUntil)
    ∧ (∀ v, p.isEditable = some v → (applyPatch r p now).isEditable = v)
    ∧ (∀ v, p.editableUntil = some v →
        (applyPatch r p now).editableUntil = v)
    ∧ (∀ v, p.diseaseName = some v →
        (applyPatch r p now).diseaseName = v) := by
  refine ⟨updateHealthRecord_found db now id p r hfind, rfl,
    ?_, ?_, ?_, ?_, ?_, ?_, ?_, ?_, ?_, ?_, ?_, ?_, ?_, ?_, ?_, ?_⟩
  all_goals (intro h; try intro hv)
  all_goals simp_all [applyPatch]

/-- Witness for C10: patching a locked-window field on the concrete store.
The patch names only `isEditable` and `editableUntil`. -/
theorem updateHealthRecord_frame_witness :
    (updateHealthRecord [exRecord] 5000 "rec1"
      { isEditable := some false, editableUntil := some none }).1 =
      some (applyPatch exRecord
        { isEditable := some false, editableUntil := some none } 5000)
    ∧ (applyPatch exRecord
        { isEditable := some false, editableUntil := some none } 5000).updatedAt =
        some 5000
    ∧ (applyPatch exRecord
        { isEditable := some false, editableUntil := some none } 5000).isEditable =
        false
    ∧ (applyPatch exRecord
        { isEditable := some false, editableUntil := some none } 5000).diseaseName =
        exRecord.diseaseName := by
  have main := updateHealthRecord_frame_spec [exRecord] 5000 "rec1"
    { isEditable := some false, editableUntil := some none } exRecord (by decide)
  obtain ⟨h1, h2, -, -, -, -, -, h6, -, -, -, -, -, -, -, h14, -, -⟩ := main
  exact ⟨h1, h2, h14 false rfl, h6 rfl⟩

/-! C2: successful verification does not consume the OTP entry -/

/-- Counterexample to C2: after requestReset stores the code, a first
verifyReset with the correct code returns true, and a second verifyReset on
the resulting store with the same correct, non-expired code returns true
again — the claim says the second must return false. -/
theorem verifyReset_twice_counterexample :
    (verifyResetOtp (saveResetOtp otpEmpty 0 "PAT1" "patient" "123456") 1000
      "PAT1" "patient" "123456").1 = true
    ∧ (verifyResetOtp
        (verifyResetOtp (saveResetOtp otpEmpty 0 "PAT1" "patient" "123456")
          1000 "PAT1" "patient" "123456").2 2000
        "PAT1" "patient" "123456").1 = true := by
  exact ⟨by decide, by decide⟩

/-- C2 (amended): requestReset followed by verifyReset with the stored code
within the TTL returns true and leaves the store untouched (the entry is
not consumed); the entry is deleted only by updateUserPassword
(completeReset), after which any verifyReset for that key returns false. -/
theorem verifyReset_not_consumed_spec (m : OtpStore) (t0 t1 t2 : Int)
    (roleId role code : String) (h1 : t1 ≤ t0 + 600000) :
    verifyResetOtp (saveResetOtp m t0 roleId role code) t1 roleId role code =
      (true, saveResetOtp m t0 roleId role code)
    ∧ ∀ (hash : String → String) (users : List User) (pw : String),
        (verifyResetOtp
          (updateUserPassword hash users (saveResetOtp m t0 roleId role code)
            roleId role pw).2 t2 roleId role code).1 = false := by
  constructor
  · have hget : (saveResetOtp m t0 roleId role code) (otpKey roleId role) =
        some { otp := code, expires := t0 + 10 * 60 * 1000 } := by
      simp [saveResetOtp, otpSet]
    have hnotexp : ¬ ((t0 : Int) + 10 * 60 * 1000 < t1) := by omega
    simp only [verifyResetOtp, hget, if_neg hnotexp, beq_self_eq_true]
  · intro hash users pw
    have hdel : (updateUserPassword hash users
        (saveResetOtp m t0 roleId role code) roleId role pw).2
        (otpKey roleId role) = none := by
      simp [updateUserPassword, otpDelete]
    simp [verifyResetOtp, hdel]

/-- Witness for the amended C2 at concrete values. -/
theorem verifyReset_not_consumed_witness :
    (1000 : Int) ≤ 0 + 600000
    ∧ (verifyResetOtp (saveResetOtp otpEmpty 0 "PAT2" "doctor" "222222") 1000
        "PAT2" "doctor" "222222" =
        (true, saveResetOtp otpEmpty 0 "PAT2" "doctor" "222222")
      ∧ ∀ (hash : String → String) (users : List User) (pw : String),
          (verifyResetOtp
            (updateUserPassword hash users
              (saveResetOtp otpEmpty 0 "PAT2" "doctor" "222222")
              "PAT2" "doctor" pw).2 5000 "PAT2" "doctor" "222222").1 = false) :=
  ⟨by omega, verifyReset_not_consumed_spec otpEmpty 0 1000 5000 "PAT2" "doctor"
    "222222" (by omega)⟩

/-! C7: completing a reset with a case-mismatched roleId silently succeeds -/

/-- The stored user for the C7 failing input: roleId `DOC001`. -/
def exUsers : List User :=
  [{ id := "u1", roleId := "DOC001", role := "doctor", password := "oldhash" }]

/-- The pending OTP for the C7 failing input, requested with the
lower-case spelling `doc001` that the case-insensitive read accepted. -/
def exMismatchStore : OtpStore := saveResetOtp otpEmpty 0 "doc001" "doctor" "654321"

/-- C7 (code behavior at the failing input): the case-insensitive read
finds the user for `doc001`, the reset-password route reports success for
`doc001`, yet the stored users are left completely unchanged — the
exact-match write silently matched no user, so the failure is swallowed
rather than surfaced. -/
theorem resetPassword_case_mismatch_silent :
    getUserByRoleId exUsers "doc001" "doctor" =
      some { id := "u1", roleId := "DOC001", role := "doctor", password := "oldhash" }
    ∧ (resetPasswordRoute (fun s => s) exUsers exMismatchStore 1000
        "doc001" "doctor" "654321" "newpw").1 = .success
    ∧ (resetPasswordRoute (fun s => s) exUsers exMismatchStore 1000
        "doc001" "doctor" "654321" "newpw").2.1 = exUsers := by
  refine ⟨by decide, by decide, by decide⟩

/-! C3: the trend classifier has no division-by-zero guard -/

/-- A lab entry for test "X" with the given value and no normal range. -/
def zeroEntry (v : ℚ) : TestEntry :=
  { testName := "X", value := v, unit := "u", normalRange := none,
    isAbnormal := false, severity := "normal" }

/-- A lab result for patient "P1" on the given date holding one entry. -/
def zeroLab (d : Int) (v : ℚ) : LabResult :=
  { id := "L", patientId := "P1", testDate := d, testType := "panel",
    orderedBy := "d", labName := "lab", results := [zeroEntry v],
    overallStatus := "normal" }

/-- The failing input for C3: four data points all equal to 0, so
`olderAvg = 0` and the absolute delta is 0. -/
def zeroSeries : List LabResult :=
  [zeroLab 1 0, zeroLab 2 0, zeroLab 3 0, zeroLab 4 0]

/-- C3 (code behavior at the failing input): with `olderAvg = 0` and
`recentAvg = 0` the source performs the unguarded `0 / 0` (NaN in JS,
where `Math.abs(NaN) < 5` and `NaN > 0` are both false) and classifies a
perfectly flat all-zero series as "decreasing" — neither `stable` nor the
sign of the absolute delta, so no special-casing exists. -/
theorem labTrends_zero_divisor_behavior :
    olderAvgOf (getLabTrends zeroSeries "P1" "X").data = 0
    ∧ recentAvgOf (getLabTrends zeroSeries "P1" "X").data = 0
    ∧ (getLabTrends zeroSeries "P1" "X").trend = "decreasing" := by
  refine ⟨?_, ?_, ?_⟩ <;>
    norm_num [getLabTrends, patientLabsSorted, sortByTestDate, insertByDate,
      labScan, labScanAux, findTest, zeroSeries, zeroLab, zeroEntry,
      classifyTrend, recentOf, olderOf, recentAvgOf, olderAvgOf, avgQ,
      jsDiv, jsMul100, jsAbs, jsLtConst, jsGtZero, List.find?]

/-! C5: prediction dashboard aggregation -/

/-- Inserting a prediction never yields the empty list. -/
theorem insertByDateDesc_ne_nil (p : HealthPrediction)
    (l : List HealthPrediction) : insertByDateDesc p l ≠ [] := by
  cases l with
  | nil => simp [insertByDateDesc]
  | cons x xs =>
      by_cases h : x.predictionDate ≤ p.predictionDate <;>
        simp [insertByDateDesc, h]

/-- The descending sort is empty exactly when its input is. -/
theorem sortDesc_nil_iff (l : List HealthPrediction) :
    l.foldr insertByDateDesc [] = [] ↔ l = [] := by
  cases l with
  | nil => simp
  | cons x xs =>
      simp only [List.foldr_cons]
      exact ⟨fun h => absurd h (insertByDateDesc_ne_nil x _), fun h => by
        exact absurd h (by simp)⟩

/-- C5: with no stored prediction for the patient the dashboard is exactly
the fixed fallback payload; otherwise `currentRisks` is the latest
snapshot's predictions filtered to high/critical and projected to
`{condition, riskScore, riskLevel}`, `recommendations` is the concatenation
of all predictions' recommendation lists in prediction order truncated to
5 entries, and `healthScore`/`trend` pass through unchanged; the
recommendation list never exceeds 5 entries. -/
theorem predictionDashboard_spec (allPreds : List HealthPrediction)
    (pid : String) :
    (allPreds.filter (fun q => q.patientId == pid) = [] →
      predictionDashboard allPreds pid =
        { currentRisks := [], healthScore := 85, trend := "stable",
          recommendations := [fallbackAdvisory] })
    ∧ (∀ lp, getLatestPrediction allPreds pid = some lp →
        predictionDashboard allPreds pid =
          { currentRisks :=
              (lp.predictions.filter
                (fun q => q.riskLevel == "high" || q.riskLevel == "critical")).map
                (fun q =>
                  { condition := q.condition
                    riskScore := q.riskScore
                    riskLevel := q.riskLevel })
            healthScore := lp.overallHealthScore
            trend := lp.trendDirection
            recommendations :=
              ((lp.predictions.map (fun q => q.recommendations)).flatten).take 5 })
    ∧ (predictionDashboard allPreds pid).recommendations.length ≤ 5 := by
  refine ⟨?_, ?_, ?_⟩
  · intro h
    have hnone : getLatestPrediction allPreds pid = none := by
      unfold getLatestPrediction
      rw [h]
      rfl
    simp [predictionDashboard, hnone]
  · intro lp hlp
    simp [predictionDashboard, hlp]
  · cases hl : getLatestPrediction allPreds pid with
    | none => simp [predictionDashboard, hl, fallbackAdvisory]
    | some lp =>
        simp only [predictionDashboard, hl]
        exact List.length_take_le 5 _

/-- Concrete stored prediction used by the C5 witness: three conditions,
seven recommendation strings in total. -/
def exPrediction : HealthPrediction :=
  { id := "pred1"
    patientId := "PAT1"
    predictionDate := 10
    predictions :=
      [ { condition := "diabetes", riskScore := 80, riskLevel := "high",
          recommendations := ["a1", "a2", "a3"] },
        { condition := "anemia", riskScore := 20, riskLevel := "low",
          recommendations := ["b1", "b2"] },
        { condition := "cardiac", riskScore := 95, riskLevel := "critical",
          recommendations := ["c1", "c2"] } ]
    overallHealthScore := 55
    trendDirection := "declining" }

/-- Witness for C5 on a one-snapshot store. -/
theorem predictionDashboard_witness :
    (([exPrediction].filter (fun q => q.patientId == "PAT1")) = [] →
      predictionDashboard [exPrediction] "PAT1" =
        { currentRisks := [], healthScore := 85, trend := "stable",
          recommendations := [fallbackAdvisory] })
    ∧ (∀ lp, getLatestPrediction [exPrediction] "PAT1" = some lp →
        predictionDashboard [exPrediction] "PAT1" =
          { currentRisks :=
              (lp.predictions.filter
                (fun q => q.riskLevel == "high" || q.riskLevel == "critical")).map
                (fun q =>
                  { condition := q.condition
                    riskScore := q.riskScore
                    riskLevel := q.riskLevel })
            healthScore := lp.overallHealthScore
            trend := lp.trendDirection
            recommendations :=
              ((lp.predictions.map (fun q => q.recommendations)).flatten).take 5 })
    ∧ (predictionDashboard [exPrediction] "PAT1").recommendations.length ≤ 5 :=
  predictionDashboard_spec [exPrediction] "PAT1"

/-! C9: OTP generation, keying and last-write-wins -/

/-- C9: the generated reset code is the decimal representation of a number
in 100000–999999 (a 6-digit numeric string); it is stored under the key
`role:roleId` with `expiresAt = now + 10 minutes`; a second requestReset
overwrites the entry (last write wins) so only the newer code verifies. -/
theorem forgotPassword_otp_spec (users : List User) (m : OtpStore)
    (now now2 tv : Int) (roleId role : String) (r r2 : ℚ) (u : User)
    (h0 : 0 ≤ r) (h1 : r < 1)
    (huser : getUserByRoleId users roleId role = some u) :
    (∃ n : ℕ, 100000 ≤ n ∧ n ≤ 999999 ∧ genOtp r = Nat.repr n)
    ∧ (forgotPasswordRoute users m now roleId role r).1 = some (genOtp r)
    ∧ (forgotPasswordRoute users m now roleId role r).2 (otpKey roleId role) =
        some { otp := genOtp r, expires := now + 600000 }
    ∧ (forgotPasswordRoute users
        ((forgotPasswordRoute users m now roleId role r).2) now2 roleId role
        r2).2 (otpKey roleId role) =
        some { otp := genOtp r2, expires := now2 + 600000 }
    ∧ (genOtp r ≠ genOtp r2 → tv ≤ now2 + 600000 →
        (verifyResetOtp ((forgotPasswordRoute users
            ((forgotPasswordRoute users m now roleId role r).2) now2 roleId
            role r2).2) tv roleId role (genOtp r)).1 = false
        ∧ (verifyResetOtp ((forgotPasswordRoute users
            ((forgotPasswordRoute users m now roleId role r).2) now2 roleId
            role r2).2) tv roleId role (genOtp r2)).1 = true) := by
  have hget : ∀ (mm : OtpStore) (t : Int) (c : String),
      (saveResetOtp mm t roleId role c) (otpKey roleId role) =
        some { otp := c, expires := t + 600000 } := by
    intro mm t c
    norm_num [saveResetOtp, otpSet]
  have hroute : ∀ (mm : OtpStore) (t : Int) (q : ℚ),
      forgotPasswordRoute users mm t roleId role q =
        (some (genOtp q), saveResetOtp mm t roleId role (genOtp q)) := by
    intro mm t q
    simp [forgotPasswordRoute, huser]
  have hf1 : (100000 : ℤ) ≤ ⌊(100000 : ℚ) + r * 900000⌋ := by
    apply Int.le_floor.mpr
    push_cast
    nlinarith [mul_nonneg h0 (by norm_num : (0:ℚ) ≤ 900000)]
  have hf2 : ⌊(100000 : ℚ) + r * 900000⌋ < 1000000 := by
    apply Int.floor_lt.mpr
    push_cast
    nlinarith
  refine ⟨⟨genOtpNat r, ?_, ?_, rfl⟩, ?_, ?_, ?_, ?_⟩
  · unfold genOtpNat
    omega
  · unfold genOtpNat
    omega
  · rw [hroute]
  · rw [hroute]
    exact hget m now (genOtp r)
  · rw [hroute, hroute]
    exact hget _ now2 (genOtp r2)
  · intro hne htv
    have hstore := hget (saveResetOtp m now roleId role (genOtp r)) now2 (genOtp r2)
    have hnotexp : ¬ (now2 + 600000 < tv) := by omega
    constructor
    · rw [hroute, hroute]
      simp only [verifyResetOtp, hstore, if_neg hnotexp]
      simp [Ne.symm hne]
    · rw [hroute, hroute]
      simp only [verifyResetOtp, hstore, if_neg hnotexp, beq_self_eq_true]

/-! C4: full characterization of the trend classifier -/

/-- Specification-side view of the extracted data points: one `(date,
value)` pair per result whose `results` array holds an entry with exactly
the requested test name. -/
def matchedPoints (rs : List LabResult) (tn : String) : List (Int × ℚ) :=
  rs.filterMap (fun r => (findTest r.results tn).map (fun e => (r.testDate, e.value)))

/-- Specification-side view of the candidate normal ranges: the non-null
ranges of the matching entries, in scan order. -/
def matchedRanges (rs : List LabResult) (tn : String) : List NormalRange :=
  (rs.filterMap (fun r => findTest r.results tn)).filterMap
    (fun e => e.normalRange)

/-- Unfolding matchedPoints over a head with no matching entry. -/
theorem matchedPoints_cons_none (r : LabResult) (rest : List LabResult)
    (tn : String) (hf : findTest r.results tn = none) :
    matchedPoints (r :: rest) tn = matchedPoints rest tn := by
  simp [matchedPoints, List.filterMap_cons, hf]

/-- Unfolding matchedPoints over a head with a matching entry. -/
theorem matchedPoints_cons_some (r : LabResult) (rest : List LabResult)
    (tn : String) (e : TestEntry) (hf : findTest r.results tn = some e) :
    matchedPoints (r :: rest) tn =
      (r.testDate, e.value) :: matchedPoints rest tn := by
  simp [matchedPoints, List.filterMap_cons, hf]

/-- Unfolding matchedRanges over a head with no matching entry. -/
theorem matchedRanges_cons_nomatch (r : LabResult) (rest : List LabResult)
    (tn : String) (hf : findTest r.results tn = none) :
    matchedRanges (r :: rest) tn = matchedRanges rest tn := by
  simp [matchedRanges, List.filterMap_cons, hf]

/-- Unfolding matchedRanges over a head whose matching entry has a null
range. -/
theorem matchedRanges_cons_null (r : LabResult) (rest : List LabResult)
    (tn : String) (e : TestEntry) (hf : findTest r.results tn = some e)
    (hnr : e.normalRange = none) :
    matchedRanges (r :: rest) tn = matchedRanges rest tn := by
  simp [matchedRanges, List.filterMap_cons, hf, hnr]

/-- Unfolding matchedRanges over a head whose matching entry has a
non-null range. -/
theorem matchedRanges_cons_range (r : LabResult) (rest : List LabResult)
    (tn : String) (e : TestEntry) (y : NormalRange)
    (hf : findTest r.results tn = some e) (hnr : e.normalRange = some y) :
    matchedRanges (r :: rest) tn = y :: matchedRanges rest tn := by
  simp [matchedRanges, List.filterMap_cons, hf, hnr]

/-- The scan's data points are exactly the matched points. -/
theorem labScanAux_fst (tn : String) (acc : Option NormalRange)
    (rs : List LabResult) : (labScanAux tn acc rs).1 = matchedPoints rs tn := by
  induction rs generalizing acc with
  | nil => rfl
  | cons r rest ih =>
      cases hf : findTest r.results tn with
      | none =>
          rw [matchedPoints_cons_none r rest tn hf]
          simp only [labScanAux, hf]
          exact ih acc
      | some e =>
          rw [matchedPoints_cons_some r rest tn e hf]
          simp only [labScanAux, hf]
          simp [ih]

/-- Once a range has been captured it is never replaced. -/
theorem labScanAux_snd_some (tn : String) (x : NormalRange)
    (rs : List LabResult) : (labScanAux tn (some x) rs).2 = some x := by
  induction rs with
  | nil => rfl
  | cons r rest ih =>
      cases hf : findTest r.results tn <;> simp [labScanAux, hf, ih]

/-- Starting from a null accumulator, the captured range is the first
non-null range among the matching entries. -/
theorem labScanAux_snd_none (tn : String) (rs : List LabResult) :
    (labScanAux tn none rs).2 = (matchedRanges rs tn).head? := by
  induction rs with
  | nil => rfl
  | cons r rest ih =>
      cases hf : findTest r.results tn with
      | none =>
          rw [matchedRanges_cons_nomatch r rest tn hf]
          simp only [labScanAux, hf]
          exact ih
      | some e =>
          cases hnr : e.normalRange with
          | none =>
              rw [matchedRanges_cons_null r rest tn e hf hnr]
              simp only [labScanAux, hf, hnr]
              exact ih
          | some y =>
              rw [matchedRanges_cons_range r rest tn e y hf hnr]
              simp only [labScanAux, hf, hnr]
              simp [labScanAux_snd_some]

/-- The percent change `((recentAvg - olderAvg) / olderAvg) * 100` as a
rational (meaningful when `olderAvg ≠ 0`). -/
def pctChangeOf (pts : List (Int × ℚ)) : ℚ :=
  (recentAvgOf pts - olderAvgOf pts) / olderAvgOf pts * 100

/-- Closed form of the classifier when at least 4 points exist and the
older average is nonzero: the JS arithmetic collapses to plain rational
comparisons. -/
theorem classifyTrend_closed_form (pts : List (Int × ℚ))
    (nr : Option NormalRange) (h4 : 4 ≤ pts.length)
    (hnz : olderAvgOf pts ≠ 0) :
    classifyTrend pts nr =
      (if |pctChangeOf pts| < 5 then "stable"
       else match nr with
         | some x =>
             if |recentAvgOf pts - (x.min + x.max) / 2| <
                 |olderAvgOf pts - (x.min + x.max) / 2|
             then "improving" else "worsening"
         | none =>
             if 0 < pctChangeOf pts then "increasing" else "decreasing") := by
  have hrec : 0 < (recentOf pts).length := by
    simp only [recentOf, List.length_drop]
    omega
  have hold : 0 < (olderOf pts).length := by
    simp only [olderOf, List.length_take]
    omega
  have hdiv : jsDiv (recentAvgOf pts - olderAvgOf pts) (olderAvgOf pts) =
      .fin ((recentAvgOf pts - olderAvgOf pts) / olderAvgOf pts) := by
    simp [jsDiv, hnz]
  unfold classifyTrend
  rw [if_pos (by omega : 2 ≤ pts.length)]
  simp only []
  rw [if_pos ⟨hrec, hold⟩]
  have hchange :
      jsMul100 (jsDiv (avgQ ((recentOf pts).map Prod.snd) -
          avgQ ((olderOf pts).map Prod.snd))
        (avgQ ((olderOf pts).map Prod.snd))) = .fin (pctChangeOf pts) := by
    have h2 : avgQ ((recentOf pts).map Prod.snd) = recentAvgOf pts := rfl
    have h3 : avgQ ((olderOf pts).map Prod.snd) = olderAvgOf pts := rfl
    rw [h2, h3, hdiv]
    simp [jsMul100, pctChangeOf]
  rw [hchange]
  simp only [jsAbs, jsLtConst, jsGtZero]
  by_cases hc : |pctChangeOf pts| < 5
  · rw [if_pos hc]
    simp [hc]
  · rw [if_neg hc]
    simp only [decide_eq_true_eq]
    rw [if_neg hc]
    cases nr with
    | none =>
        by_cases hp : 0 < pctChangeOf pts <;> simp [hp]
    | some x =>
        have h2 : avgQ ((recentOf pts).map Prod.snd) = recentAvgOf pts := rfl
        have h3 : avgQ ((olderOf pts).map Prod.snd) = olderAvgOf pts := rfl
        simp only [h2, h3]

/-- Branch-by-branch characterization of the classifier, matching the
spec's enumeration. -/
theorem classifyTrend_characterization (pts : List (Int × ℚ))
    (nr : Option NormalRange) :
    (pts.length < 2 → classifyTrend pts nr = "stable")
    ∧ (2 ≤ pts.length → pts.length ≤ 3 → classifyTrend pts nr = "stable")
    ∧ (4 ≤ pts.length → olderAvgOf pts ≠ 0 →
        ((|pctChangeOf pts| < 5 → classifyTrend pts nr = "stable")
         ∧ (5 ≤ |pctChangeOf pts| → ∀ x, nr = some x →
             classifyTrend pts nr =
               (if |recentAvgOf pts - (x.min + x.max) / 2| <
                   |olderAvgOf pts - (x.min + x.max) / 2|
                then "improving" else "worsening"))
         ∧ (5 ≤ |pctChangeOf pts| → nr = none →
             classifyTrend pts nr =
               (if 0 < pctChangeOf pts
                then "increasing" else "decreasing")))) := by
  refine ⟨?_, ?_, ?_⟩
  · intro h
    unfold classifyTrend
    rw [if_neg (by omega)]
  · intro h2 h3
    have hold : (olderOf pts).length = 0 := by
      simp only [olderOf, List.length_take]
      omega
    unfold classifyTrend
    rw [if_pos h2]
    simp only []
    rw [if_neg (by simp [hold])]
  · intro h4 hnz
    have hcf := classifyTrend_closed_form pts nr h4 hnz
    refine ⟨?_, ?_, ?_⟩
    · intro h5
      rw [hcf, if_pos h5]
    · intro h5 x hx
      subst hx
      rw [hcf, if_neg (not_lt.mpr h5)]
    · intro h5 hx
      subst hx
      rw [hcf, if_neg (not_lt.mpr h5)]

/-- C4 (amended): getLabTrends extracts, over the patient's date-ascending
results, one data point per result whose `results` array holds an entry
matching the test name exactly; the sticky normalRange is the first
non-null range among the matching entries; fewer than 2 points or an empty
older group (2–3 points) gives "stable"; with at least 4 points and a
nonzero older average, |percent change| < 5 gives "stable", a known range
gives "improving" iff the recent average is strictly closer to the range
midpoint, and no known range gives "increasing" iff the change is
positive, else "decreasing". -/
theorem getLabTrends_algorithm_spec (allLabs : List LabResult)
    (pid tn : String) (res : TrendResult)
    (hres : res = getLabTrends allLabs pid tn) :
    res.data = matchedPoints (patientLabsSorted allLabs pid) tn
    ∧ res.normalRange = (matchedRanges (patientLabsSorted allLabs pid) tn).head?
    ∧ (res.data.length < 2 → res.trend = "stable")
    ∧ (2 ≤ res.data.length → res.data.length ≤ 3 → res.trend = "stable")
    ∧ (4 ≤ res.data.length → olderAvgOf res.data ≠ 0 →
        ((|pctChangeOf res.data| < 5 → res.trend = "stable")
         ∧ (5 ≤ |pctChangeOf res.data| → ∀ x, res.normalRange = some x →
             res.trend =
               (if |recentAvgOf res.data - (x.min + x.max) / 2| <
                   |olderAvgOf res.data - (x.min + x.max) / 2|
                then "improving" else "worsening"))
         ∧ (5 ≤ |pctChangeOf res.data| → res.normalRange = none →
             res.trend =
               (if 0 < pctChangeOf res.data
                then "increasing" else "decreasing")))) := by
  subst hres
  have hdata : (getLabTrends allLabs pid tn).data =
      matchedPoints (patientLabsSorted allLabs pid) tn :=
    labScanAux_fst tn none (patientLabsSorted allLabs pid)
  have hrange : (getLabTrends allLabs pid tn).normalRange =
      (matchedRanges (patientLabsSorted allLabs pid) tn).head? :=
    labScanAux_snd_none tn (patientLabsSorted allLabs pid)
  have htrend : (getLabTrends allLabs pid tn).trend =
      classifyTrend (getLabTrends allLabs pid tn).data
        (getLabTrends allLabs pid tn).normalRange := rfl
  have hchar := classifyTrend_characterization
    (getLabTrends allLabs pid tn).data
    (getLabTrends allLabs pid tn).normalRange
  rw [htrend]
  exact ⟨hdata, hrange, hchar.1, hchar.2.1, hchar.2.2⟩

/-- Two lab results for the sticky-range counterexample: the first
matching entry has a null normalRange, the second carries 80–120. -/
def mixedLabs : List LabResult :=
  [ { id := "L1", patientId := "P1", testDate := 1, testType := "panel",
      orderedBy := "d", labName := "lab",
      results := [{ testName := "X", value := 100, unit := "u",
                    normalRange := none, isAbnormal := false,
                    severity := "normal" }],
      overallStatus := "normal" },
    { id := "L2", patientId := "P1", testDate := 2, testType := "panel",
      orderedBy := "d", labName := "lab",
      results := [{ testName := "X", value := 100, unit := "u",
                    normalRange := some { min := 80, max := 120 },
                    isAbnormal := false, severity := "normal" }],
      overallStatus := "normal" }]

/-- Counterexample to C4 as stated: the first matching entry encountered
has a null normalRange, yet getLabTrends returns the second entry's range
80–120 — the returned range is not the first matching entry's. -/
theorem labTrends_sticky_range_counterexample :
    ((patientLabsSorted mixedLabs "P1").filterMap
      (fun r => findTest r.results "X")).head? =
      some { testName := "X", value := 100, unit := "u",
             normalRange := none, isAbnormal := false, severity := "normal" }
    ∧ (getLabTrends mixedLabs "P1" "X").normalRange =
        some { min := 80, max := 120 } := by
  constructor
  · norm_num [patientLabsSorted, sortByTestDate, insertByDate, mixedLabs,
      findTest, List.filterMap_cons, List.find?]
  · norm_num [getLabTrends, patientLabsSorted, sortByTestDate, insertByDate,
      mixedLabs, labScan, labScanAux, findTest, List.find?]

/-- Concrete four-point series used by the C4 witness. -/
def exTrendLabs : List LabResult :=
  [zeroLab 1 5, zeroLab 2 10, zeroLab 3 10, zeroLab 4 10]

/-- Witness for C4 on a concrete series. -/
theorem getLabTrends_algorithm_witness :
    (getLabTrends exTrendLabs "P1" "X").data =
      matchedPoints (patientLabsSorted exTrendLabs "P1") "X"
    ∧ (getLabTrends exTrendLabs "P1" "X").normalRange =
        (matchedRanges (patientLabsSorted exTrendLabs "P1") "X").head?
    ∧ ((getLabTrends exTrendLabs "P1" "X").data.length < 2 →
        (getLabTrends exTrendLabs "P1" "X").trend = "stable")
    ∧ (2 ≤ (getLabTrends exTrendLabs "P1" "X").data.length →
        (getLabTrends exTrendLabs "P1" "X").data.length ≤ 3 →
        (getLabTrends exTrendLabs "P1" "X").trend = "stable")
    ∧ (4 ≤ (getLabTrends exTrendLabs "P1" "X").data.length →
        olderAvgOf (getLabTrends exTrendLabs "P1" "X").data ≠ 0 →
        ((|pctChangeOf (getLabTrends exTrendLabs "P1" "X").data| < 5 →
            (getLabTrends exTrendLabs "P1" "X").trend = "stable")
         ∧ (5 ≤ |pctChangeOf (getLabTrends exTrendLabs "P1" "X").data| →
             ∀ x, (getLabTrends exTrendLabs "P1" "X").normalRange = some x →
             (getLabTrends exTrendLabs "P1" "X").trend =
               (if |recentAvgOf (getLabTrends exTrendLabs "P1" "X").data -
                     (x.min + x.max) / 2| <
                   |olderAvgOf (getLabTrends exTrendLabs "P1" "X").data -
                     (x.min + x.max) / 2|
                then "improving" else "worsening"))
         ∧ (5 ≤ |pctChangeOf (getLabTrends exTrendLabs "P1" "X").data| →
             (getLabTrends exTrendLabs "P1" "X").normalRange = none →
             (getLabTrends exTrendLabs "P1" "X").trend =
               (if 0 < pctChangeOf (getLabTrends exTrendLabs "P1" "X").data
                then "increasing" else "decreasing")))) :=
  getLabTrends_algorithm_spec exTrendLabs "P1" "X"
    (getLabTrends exTrendLabs "P1" "X") rfl

/-- The stored user for the C9 witness. -/
def exUsers9 : List User :=
  [{ id := "u9", roleId := "PAT9", role := "patient", password := "h" }]

/-- Witness for C9 with the random draw 1/2 and then 0. -/
theorem forgotPassword_otp_witness :
    (∃ n : ℕ, 100000 ≤ n ∧ n ≤ 999999 ∧ genOtp (1/2) = Nat.repr n)
    ∧ (forgotPasswordRoute exUsers9 otpEmpty 0 "PAT9" "patient" (1/2)).1 =
        some (genOtp (1/2))
    ∧ (forgotPasswordRoute exUsers9 otpEmpty 0 "PAT9" "patient" (1/2)).2
        (otpKey "PAT9" "patient") =
        some { otp := genOtp (1/2), expires := 0 + 600000 }
    ∧ (forgotPasswordRoute exUsers9
        ((forgotPasswordRoute exUsers9 otpEmpty 0 "PAT9" "patient" (1/2)).2)
        50 "PAT9" "patient" 0).2 (otpKey "PAT9" "patient") =
        some { otp := genOtp 0, expires := 50 + 600000 }
    ∧ (genOtp (1/2) ≠ genOtp 0 → (100 : Int) ≤ 50 + 600000 →
        (verifyResetOtp ((forgotPasswordRoute exUsers9
            ((forgotPasswordRoute exUsers9 otpEmpty 0 "PAT9" "patient"
              (1/2)).2) 50 "PAT9" "patient" 0).2) 100 "PAT9" "patient"
          (genOtp (1/2))).1 = false
        ∧ (verifyResetOtp ((forgotPasswordRoute exUsers9
            ((forgotPasswordRoute exUsers9 otpEmpty 0 "PAT9" "patient"
              (1/2)).2) 50 "PAT9" "patient" 0).2) 100 "PAT9" "patient"
          (genOtp 0)).1 = true) :=
  forgotPassword_otp_spec exUsers9 otpEmpty 0 50 100 "PAT9" "patient" (1/2) 0
    { id := "u9", roleId := "PAT9", role := "patient", password := "h" }
    (by norm_num) (by norm_num) (by decide)
